import Mathlib

/-!
Verification of the ai-note-writer-mvp repository.

Part 1 embeds the note-generation endpoint
(`src/app/api/generate-note/route.ts`): the six context templates, the
prompt composition performed by `POST`, and the request validation.

Part 2 embeds the patient directory service
(`src/lib/firebase/patient-service.ts`, plus the earlier revision of the
same service found in the repository): the Firestore collection is
modelled as an association list from document id to patient document,
and each service method becomes a store transformer.
-/

namespace NoteWriter

/-! ### Context templates (`CONTEXT_PROMPTS`, route.ts lines 7-51) -/

def hmhiTransferPrompt : String :=
"You are a HIPAA-compliant AI clinical documentation assistant for Dr. Rufus Sweeney, a PGY-3 psychiatry resident at HMHI Downtown Clinic.

Generate a comprehensive transfer of care note for outpatient psychiatry.

CRITICAL: HMHI Downtown uses Epic EMR - include relevant Epic SmartPhrases and @SMARTPHRASE@ syntax where appropriate.

For transfer of care notes, follow these specific guidelines:
1. Copy forward unchanged sections from the previous note when appropriate
2. Update only sections that have new information from the session
3. Maintain continuity of care documentation
4. Use Epic-compatible formatting and SmartPhrases"

def hmhiFollowupPrompt : String :=
"You are a HIPAA-compliant AI clinical documentation assistant for Dr. Rufus Sweeney, a PGY-3 psychiatry resident at HMHI Downtown Clinic.

Generate a concise but comprehensive outpatient psychiatry follow-up note.

CRITICAL: HMHI Downtown uses Epic EMR - include relevant Epic SmartPhrases and @SMARTPHRASE@ syntax where appropriate."

def dbhIntakePrompt : String :=
"You are a HIPAA-compliant AI clinical documentation assistant for Dr. Rufus Sweeney, a PGY-3 psychiatry resident at Davis Behavioral Health.

Generate a comprehensive Credible EMR-compatible outpatient psychiatry intake assessment.

CRITICAL: Davis Behavioral Health uses Credible EMR - output PLAIN TEXT ONLY. Do NOT use Epic SmartPhrases, @SMARTPHRASE@ syntax, or .dotphrases.

Structure the note with comprehensive intake sections including detailed psychiatric history, mental status exam, and treatment plan."

def dbhFollowupPrompt : String :=
"You are a HIPAA-compliant AI clinical documentation assistant for Dr. Rufus Sweeney, a PGY-3 psychiatry resident at Davis Behavioral Health.

Generate a Credible EMR-compatible outpatient psychiatry follow-up note.

CRITICAL: Davis Behavioral Health uses Credible EMR - output PLAIN TEXT ONLY. Do NOT use Epic SmartPhrases, @SMARTPHRASE@ syntax, or .dotphrases."

def redwoodIntakePrompt : String :=
"You are a HIPAA-compliant AI clinical documentation assistant for Dr. Rufus Sweeney, a PGY-3 psychiatry resident at Redwood Clinic MH Integration.

Generate a mental health integration intake note for primary care setting.

Use clear, accessible language appropriate for integrated care documentation."

def redwoodFollowupPrompt : String :=
"You are a HIPAA-compliant AI clinical documentation assistant for Dr. Rufus Sweeney, a PGY-3 psychiatry resident at Redwood Clinic MH Integration.

Generate a mental health integration follow-up note for primary care setting.

Use clear, accessible language appropriate for integrated care documentation."

/-- The `CONTEXT_PROMPTS` object literal: a finite map from the six
recognized context keys to their templates; any other key misses. -/
def CONTEXT_PROMPTS (context : String) : Option String :=
  if context = "hmhi-transfer" then some hmhiTransferPrompt
  else if context = "hmhi-followup" then some hmhiFollowupPrompt
  else if context = "dbh-intake" then some dbhIntakePrompt
  else if context = "dbh-followup" then some dbhFollowupPrompt
  else if context = "redwood-intake" then some redwoodIntakePrompt
  else if context = "redwood-followup" then some redwoodFollowupPrompt
  else none

/-- `CONTEXT_PROMPTS[context] || CONTEXT_PROMPTS['hmhi-transfer']`
(route.ts line 81).  All six templates are non-empty, so the JS falsy
fallback fires exactly when the lookup misses. -/
def systemPromptFor (context : String) : String :=
  match CONTEXT_PROMPTS context with
  | some p => p
  | none => hmhiTransferPrompt

/-! ### The `PatientContext` payload (route.ts lines 53-59) -/

structure PatientContext where
  patientName : String
  patientMRN : Option String
  patientDOB : Option String
  patientGender : Option String
deriving DecidableEq, Repr

/-- JS truthiness of an optional string field: `undefined` and the empty
string are falsy, every other string is truthy. -/
def optTruthy : Option String → Bool
  | none => false
  | some s => ! (s = "")

/-- Prompt composition of `POST` (route.ts lines 83-121), mirroring the
successive `prompt +=` statements.  `previousNote` models the optional
JSON field, with the empty string standing for an absent note (both are
falsy at the only place the field is inspected). -/
def buildPrompt (context transcript : String) (patientContext : Option PatientContext)
    (previousNote : String) : String :=
  let systemPrompt := systemPromptFor context
  let prompt := systemPrompt ++ "\n\nTRANSCRIPT:\n" ++ transcript
  let prompt :=
    match patientContext with
    | none => prompt
    | some pc =>
      let prompt := prompt ++ "\n\nPATIENT INFORMATION:\nName: " ++ pc.patientName
      let prompt :=
        if optTruthy pc.patientMRN then prompt ++ "\nMRN: " ++ pc.patientMRN.getD "" else prompt
      let prompt :=
        if optTruthy pc.patientDOB then
          prompt ++ "\nDate of Birth: " ++ pc.patientDOB.getD ""
        else prompt
      if optTruthy pc.patientGender then
        prompt ++ "\nGender: " ++ pc.patientGender.getD ""
      else prompt
  let prompt :=
    if context = "hmhi-transfer" ∧ previousNote ≠ "" then
      prompt ++ "\n\nPREVIOUS PATIENT NOTE:\n" ++ previousNote
    else prompt
  prompt ++ "\n\nGenerate the clinical note now:"

/-- Outcome of one `POST` request.  `generated p` records that the
external generator was invoked with prompt `p`; the two error
constructors carry the JSON error message of the 400 and 500 responses. -/
inductive PostResult where
  | badRequest (error : String)
  | serverError (error : String)
  | generated (prompt : String)
deriving DecidableEq, Repr

/-- The `POST` handler (route.ts lines 61-131) up to the external call.
`if (!transcript)` rejects exactly the falsy transcripts, i.e. the empty
string in the string model. -/
def handleGenerateNote (transcript context previousNote : String)
    (patientContext : Option PatientContext) (apiKeyConfigured : Bool) : PostResult :=
  if transcript = "" then .badRequest "Transcript is required"
  else if ! apiKeyConfigured then .serverError "Gemini API key not configured"
  else .generated (buildPrompt context transcript patientContext previousNote)

/-! ### Named sections of the composed prompt, for the decomposition
theorems. -/

def transcriptSection (transcript : String) : String :=
  "\n\nTRANSCRIPT:\n" ++ transcript

def patientSection : Option PatientContext → String
  | none => ""
  | some pc =>
    "\n\nPATIENT INFORMATION:\nName: " ++ pc.patientName
      ++ (if optTruthy pc.patientMRN then "\nMRN: " ++ pc.patientMRN.getD "" else "")
      ++ (if optTruthy pc.patientDOB then "\nDate of Birth: " ++ pc.patientDOB.getD "" else "")
      ++ (if optTruthy pc.patientGender then "\nGender: " ++ pc.patientGender.getD "" else "")

def previousNoteSection (context previousNote : String) : String :=
  if context = "hmhi-transfer" ∧ previousNote ≠ "" then
    "\n\nPREVIOUS PATIENT NOTE:\n" ++ previousNote
  else ""

def closingSection : String :=
  "\n\nGenerate the clinical note now:"

end NoteWriter

namespace PatientDirectory

/-! ### Data model (`src/lib/types/patient.ts`) -/

inductive Gender where
  | male
  | female
  | other
  | preferNotToSay
deriving DecidableEq, Repr

inductive Status where
  | active
  | inactive
deriving DecidableEq, Repr

/-- A stored patient document.  Optional fields are `none` when absent
from the Firestore document (or explicitly null); timestamps are
abstract ticks. -/
structure PatientDoc where
  name : String
  mrn : Option String
  dob : Option String
  gender : Option Gender
  createdBy : String
  createdAt : Nat
  lastModified : Nat
  status : Status
deriving DecidableEq, Repr

structure CreatePatientRequest where
  name : String
  mrn : Option String
  dob : Option String
  gender : Option Gender
deriving DecidableEq, Repr

structure UpdatePatientRequest where
  name : Option String := none
  mrn : Option String := none
  dob : Option String := none
  gender : Option Gender := none
  status : Option Status := none
deriving DecidableEq, Repr

inductive SortField where
  | name
  | createdAt
  | lastModified
deriving DecidableEq, Repr

inductive SortOrder where
  | asc
  | desc
deriving DecidableEq, Repr

structure PatientSearchFilters where
  searchTerm : Option String := none
  status : Option Status := none
  sortBy : Option SortField := none
  sortOrder : Option SortOrder := none
deriving DecidableEq, Repr

/-- Drop leading whitespace characters. -/
def dropLeadingWS : List Char → List Char
  | [] => []
  | c :: cs => if c.isWhitespace then dropLeadingWS cs else c :: cs

/-- JS `String.prototype.trim`: strip leading and trailing whitespace. -/
def jsTrim (s : String) : String :=
  ⟨(dropLeadingWS ((dropLeadingWS s.data).reverse)).reverse⟩

/-- JS `String.prototype.toLowerCase` (ASCII-relevant part). -/
def jsToLower (s : String) : String :=
  ⟨s.data.map Char.toLower⟩

/-- The patients collection: an association list from document id to
document. -/
abbrev Store := List (String × PatientDoc)

/-- `setDoc` at a generated id: Firestore keys are unique, so writing a
document replaces any document at the same id. -/
def storeSet (id : String) (d : PatientDoc) (s : Store) : Store :=
  (id, d) :: s.filter (fun p => ! (p.1 = id))

/-- `updateDoc`: merge the update into the document at `id`. -/
def storeUpdate (id : String) (f : PatientDoc → PatientDoc) (s : Store) : Store :=
  s.map (fun p => if p.1 = id then (p.1, f p.2) else p)

/-! ### The current service revision
(`src/lib/firebase/patient-service.ts`) -/

/-- `getPatient` (patient-service.ts lines 109-136): user isolation —
a document that exists but was created by another user is reported as
missing (`null`), exactly like an absent document. -/
def getPatient (userId patientId : String) (s : Store) : Option PatientDoc :=
  match s.lookup patientId with
  | none => none
  | some d => if d.createdBy = userId then some d else none

/-- `createPatient` (patient-service.ts lines 41-104).  `newId` stands
for the fresh id from `doc(collectionRef)` and `now` for the server
timestamp.  Returns the created document together with the new store. -/
def createPatient (userId : String) (patientData : CreatePatientRequest)
    (newId : String) (now : Nat) (s : Store) : Except String (PatientDoc × Store) :=
  if jsTrim patientData.name = "" then .error "Patient name is required"
  else if userId = "" then .error "User ID is required for patient creation"
  else
    let d : PatientDoc :=
      { name := jsTrim patientData.name
        mrn :=
          match patientData.mrn with
          | some m => if jsTrim m = "" then none else some (jsTrim m)
          | none => none
        dob :=
          match patientData.dob with
          | some b => if jsTrim b = "" then none else some (jsTrim b)
          | none => none
        gender := patientData.gender
        createdBy := userId
        createdAt := now
        lastModified := now
        status := .active }
    .ok (d, storeSet newId d s)

/-- The field merge of `updatePatient` (patient-service.ts lines
202-231): a defined non-empty name or MRN/DOB is stored trimmed, a
defined but empty-after-trim MRN/DOB is silently ignored (omit-to-keep),
a defined gender or status is stored. -/
def withName (u : UpdatePatientRequest) (d : PatientDoc) : PatientDoc :=
  match u.name with
  | some n => if jsTrim n = "" then d else { d with name := jsTrim n }
  | none => d

def withMrn (u : UpdatePatientRequest) (d : PatientDoc) : PatientDoc :=
  match u.mrn with
  | some m => if jsTrim m = "" then d else { d with mrn := some (jsTrim m) }
  | none => d

def withDob (u : UpdatePatientRequest) (d : PatientDoc) : PatientDoc :=
  match u.dob with
  | some b => if jsTrim b = "" then d else { d with dob := some (jsTrim b) }
  | none => d

def withGender (u : UpdatePatientRequest) (d : PatientDoc) : PatientDoc :=
  match u.gender with
  | some g => { d with gender := some g }
  | none => d

def withStatus (u : UpdatePatientRequest) (d : PatientDoc) : PatientDoc :=
  match u.status with
  | some st => { d with status := st }
  | none => d

def applyUpdates (u : UpdatePatientRequest) (now : Nat) (d : PatientDoc) : PatientDoc :=
  withStatus u (withGender u (withDob u (withMrn u (withName u { d with lastModified := now }))))

/-- `updatePatient` (patient-service.ts lines 191-241): ownership is
checked through `getPatient` first; on success the stored document is
merged with the update. -/
def updatePatient (userId patientId : String) (u : UpdatePatientRequest)
    (now : Nat) (s : Store) : Except String Store :=
  match getPatient userId patientId s with
  | none => .error "Patient not found or access denied"
  | some _ => .ok (storeUpdate patientId (applyUpdates u now) s)

/-- `deactivatePatient` (patient-service.ts lines 246-248). -/
def deactivatePatient (userId patientId : String) (now : Nat) (s : Store) :
    Except String Store :=
  updatePatient userId patientId { status := some .inactive } now s

/-- `reactivatePatient` (patient-service.ts lines 253-255). -/
def reactivatePatient (userId patientId : String) (now : Nat) (s : Store) :
    Except String Store :=
  updatePatient userId patientId { status := some .active } now s

/-! ### `getPatients` and `searchPatients` -/

/-- Bool substring test, modelling JS `String.prototype.includes`
(the empty needle is contained in everything). -/
def listContainsSub (needle : List Char) : List Char → Bool
  | [] => needle.isEmpty
  | c :: rest => needle.isPrefixOf (c :: rest) || listContainsSub needle rest

def strIncludes (hay needle : String) : Bool :=
  listContainsSub needle.toList hay.toList

/-- The client-side search filter of `getPatients` (patient-service.ts
lines 173-179): match on lowercased name, or on lowercased MRN when an
MRN is present (a missing or empty MRN short-circuits as falsy). -/
def matchesSearch (term : String) (d : PatientDoc) : Bool :=
  strIncludes (jsToLower d.name) term
    || (match d.mrn with
        | some m => ! (m = "") && strIncludes (jsToLower m) term
        | none => false)

/-- Comparator backing the `orderBy` clause. -/
def docLE (f : SortField) (o : SortOrder) (a b : String × PatientDoc) : Bool :=
  let le : Bool :=
    match f with
    | .name => decide (a.2.name ≤ b.2.name)
    | .createdAt => decide (a.2.createdAt ≤ b.2.createdAt)
    | .lastModified => decide (a.2.lastModified ≤ b.2.lastModified)
  match o with
  | .asc => le
  | .desc => ! le

/-- The `where('createdBy', '==', userId)` clause of the base query. -/
def userFiltered (userId : String) (s : Store) : List (String × PatientDoc) :=
  s.filter (fun (p : String × PatientDoc) => p.2.createdBy = userId)

/-- The `where('status', '==', filters.status)` clause, added only when
a status filter is given. -/
def statusFiltered (st : Option Status) (l : List (String × PatientDoc)) :
    List (String × PatientDoc) :=
  match st with
  | some st => l.filter (fun (p : String × PatientDoc) => p.2.status = st)
  | none => l

/-- The `orderBy(sortField, sortDirection)` clause with its defaults. -/
def sortStep (filters : PatientSearchFilters) (l : List (String × PatientDoc)) :
    List (String × PatientDoc) :=
  l.insertionSort
    (fun a b => docLE (filters.sortBy.getD .lastModified) (filters.sortOrder.getD .desc) a b
      = true)

/-- The client-side search filter, applied only for a truthy search
term. -/
def searchStep (term : Option String) (l : List (String × PatientDoc)) :
    List (String × PatientDoc) :=
  match term with
  | some term =>
    if term = "" then l
    else l.filter (fun p => matchesSearch (jsTrim (jsToLower term)) p.2)
  | none => l

/-- `getPatients` (patient-service.ts lines 141-186): filter for the
requesting user, then for the status when given, order by the requested
field, and finally apply the client-side search filter when a truthy
search term was given. -/
def getPatients (userId : String) (filters : PatientSearchFilters) (s : Store) :
    List (String × PatientDoc) :=
  searchStep filters.searchTerm
    (sortStep filters (statusFiltered filters.status (userFiltered userId s)))

/-- `searchPatients` (patient-service.ts lines 260-271): empty or
whitespace-only terms return no results without touching the store;
otherwise the active patients of the user matching the term, capped at
`maxResults`. -/
def searchPatients (userId searchTerm : String) (maxResults : Nat) (s : Store) :
    List (String × PatientDoc) :=
  if jsTrim searchTerm = "" then []
  else
    (getPatients userId
        { searchTerm := some (jsTrim searchTerm)
          status := some .active
          sortBy := some .name
          sortOrder := some .asc } s).take maxResults

/-! ### The earlier service revision (second `patient-service.ts` in
the repository): its `updatePatient` clears a defined-but-empty
optional field to null instead of keeping the stored value. -/

/-- Field merge of the earlier revision's `updatePatient` (lines
185-194 of the earlier file): `updates.mrn?.trim() || null` stores null
when the trimmed MRN is empty, `updates.dob || null` stores null when
the DOB is empty, and a defined name is stored trimmed even when
empty. -/
def withNameOld (u : UpdatePatientRequest) (d : PatientDoc) : PatientDoc :=
  match u.name with
  | some n => { d with name := jsTrim n }
  | none => d

def withMrnOld (u : UpdatePatientRequest) (d : PatientDoc) : PatientDoc :=
  match u.mrn with
  | some m => { d with mrn := if jsTrim m = "" then none else some (jsTrim m) }
  | none => d

def withDobOld (u : UpdatePatientRequest) (d : PatientDoc) : PatientDoc :=
  match u.dob with
  | some b => { d with dob := if b = "" then none else some b }
  | none => d

def applyUpdatesOld (u : UpdatePatientRequest) (now : Nat) (d : PatientDoc) : PatientDoc :=
  withStatus u (withGender u (withDobOld u (withMrnOld u (withNameOld u { d with lastModified := now }))))

/-- The earlier revision's `updatePatient` (same ownership check,
different merge). -/
def updatePatientOld (userId patientId : String) (u : UpdatePatientRequest)
    (now : Nat) (s : Store) : Except String Store :=
  match getPatient userId patientId s with
  | none => .error "Patient not found or access denied"
  | some _ => .ok (storeUpdate patientId (applyUpdatesOld u now) s)

/-! ### Operation sequences over the directory -/

/-- One call to the directory service.  `newId` of a `create` is the
fresh id produced by `doc(collectionRef)`. -/
inductive Op where
  | create (userId : String) (d : CreatePatientRequest) (newId : String) (now : Nat)
  | update (userId patientId : String) (u : UpdatePatientRequest) (now : Nat)
  | deactivate (userId patientId : String) (now : Nat)
  | reactivate (userId patientId : String) (now : Nat)
deriving DecidableEq, Repr

/-- Run one service call; a call that throws leaves the store
unchanged. -/
def applyOp (s : Store) : Op → Store
  | .create userId d newId now =>
    match createPatient userId d newId now s with
    | .ok (_, s2) => s2
    | .error _ => s
  | .update userId pid u now =>
    match updatePatient userId pid u now s with
    | .ok s2 => s2
    | .error _ => s
  | .deactivate userId pid now =>
    match deactivatePatient userId pid now s with
    | .ok s2 => s2
    | .error _ => s
  | .reactivate userId pid now =>
    match reactivatePatient userId pid now s with
    | .ok s2 => s2
    | .error _ => s

def applyOps (s : Store) (ops : List Op) : Store :=
  ops.foldl applyOp s

/-- An operation that does not move the record `id` back to the active
status: it is not a reactivation of `id`, not an update of `id` whose
status field is `active` (the body of `reactivatePatient`), and not a
create at `id` (Firestore generates fresh document ids, so a create
never reuses the id of an existing record). -/
def preservesInactive (id : String) : Op → Prop
  | .create _ _ newId _ => newId ≠ id
  | .update _ pid u _ => pid = id → u.status ≠ some .active
  | .deactivate _ _ _ => True
  | .reactivate _ pid _ => pid ≠ id

/-- Every entry stored under `id` has the inactive status. -/
def allInactiveAt (id : String) (s : Store) : Prop :=
  ∀ p ∈ s, p.1 = id → p.2.status = .inactive

def c9Doc : PatientDoc :=
  { name := "Jane", mrn := some "OLD", dob := none, gender := none,
    createdBy := "u1", createdAt := 0, lastModified := 0, status := .active }

def c9Store : Store := [("p1", c9Doc)]

def c8Doc : PatientDoc :=
  { name := "Jane", mrn := none, dob := none, gender := none,
    createdBy := "u1", createdAt := 0, lastModified := 0, status := .active }

def c8Store : Store := [("p1", c8Doc)]

def c8Ops : List Op :=
  [.update "u1" "p1" { name := some "Janet" } 2,
   .create "u1" { name := "Ann", mrn := none, dob := none, gender := none } "p2" 3]

end PatientDirectory

namespace NoteWriter

theorem buildPrompt_decomposition (c t pn : String) (pc : Option PatientContext) :
    buildPrompt c t pc pn =
      systemPromptFor c ++ transcriptSection t ++ patientSection pc
        ++ previousNoteSection c pn ++ closingSection := by
  unfold buildPrompt transcriptSection patientSection previousNoteSection closingSection
  cases pc with
  | none =>
    simp only []
    split <;> simp [String.append_assoc]
  | some p =>
    simp only []
    split <;> split <;> split <;> split <;> simp [String.append_assoc]

/-! ### Claim theorems about the note-generation endpoint -/

/-- Claim C1, counterexample: a whitespace-only transcript (a single
space) is NOT rejected with the 400 error; the handler proceeds and
invokes the external generator.  The `if (!transcript)` check only
catches falsy values, and a non-empty whitespace string is truthy. -/
theorem whitespace_transcript_not_rejected :
    handleGenerateNote " " "hmhi-followup" "" none true
        = PostResult.generated (buildPrompt "hmhi-followup" " " none "")
      ∧ handleGenerateNote " " "hmhi-followup" "" none true
        ≠ PostResult.badRequest "Transcript is required" := by
  constructor
  · rfl
  · decide

/-- Claim C1, amended: a request whose transcript is exactly the empty
string is rejected with the 400 error naming the transcript field, and
the external generator is never invoked for it; whitespace-only but
non-empty transcripts pass the check. -/
theorem empty_transcript_rejected (context previousNote : String)
    (pc : Option PatientContext) (apiKeyConfigured : Bool) :
    handleGenerateNote "" context previousNote pc apiKeyConfigured
      = PostResult.badRequest "Transcript is required" := rfl

/-- Claim C3: the composed prompt always begins with the selected
template; each of the six recognized context keys selects its own fixed
template, and every context value outside the six keys degrades to the
default transfer-of-care template instead of failing. -/
theorem template_selection (c t pn : String) (pc : Option PatientContext) :
    (∃ rest, buildPrompt c t pc pn = systemPromptFor c ++ rest)
  ∧ (systemPromptFor "hmhi-transfer" = hmhiTransferPrompt
      ∧ systemPromptFor "hmhi-followup" = hmhiFollowupPrompt
      ∧ systemPromptFor "dbh-intake" = dbhIntakePrompt
      ∧ systemPromptFor "dbh-followup" = dbhFollowupPrompt
      ∧ systemPromptFor "redwood-intake" = redwoodIntakePrompt
      ∧ systemPromptFor "redwood-followup" = redwoodFollowupPrompt)
  ∧ (c ∉ ["hmhi-transfer", "hmhi-followup", "dbh-intake", "dbh-followup",
          "redwood-intake", "redwood-followup"] →
      systemPromptFor c = hmhiTransferPrompt) := by
  refine ⟨?_, ⟨rfl, rfl, rfl, rfl, rfl, rfl⟩, ?_⟩
  · exact ⟨transcriptSection t ++ patientSection pc ++ previousNoteSection c pn
        ++ closingSection, by rw [buildPrompt_decomposition]; simp [String.append_assoc]⟩
  · intro hc
    simp only [List.mem_cons, List.not_mem_nil, or_false, not_or] at hc
    obtain ⟨h1, h2, h3, h4, h5, h6⟩ := hc
    simp [systemPromptFor, CONTEXT_PROMPTS, h1, h2, h3, h4, h5, h6]

/-- Claim C3 witness: an unrecognized context key selects the default
transfer-of-care template. -/
theorem template_selection_witness :
    systemPromptFor "soap-note" = hmhiTransferPrompt :=
  (template_selection "soap-note" "t" "" none).2.2 (by decide)

/-- Claim C4: the previous-note block appears in the composed prompt
when the context is the transfer-of-care key and the supplied previous
note is non-empty; in every other case the prompt is identical to the
one composed with no previous note at all, so for contexts other than
transfer-of-care a supplied previous note never influences the prompt. -/
theorem previousNote_block (c t pn : String) (pc : Option PatientContext) :
    (c = "hmhi-transfer" ∧ pn ≠ "" →
      ∃ pre, buildPrompt c t pc pn
        = pre ++ ("\n\nPREVIOUS PATIENT NOTE:\n" ++ pn) ++ closingSection)
  ∧ (¬ (c = "hmhi-transfer" ∧ pn ≠ "") →
      buildPrompt c t pc pn = buildPrompt c t pc "")
  ∧ (c ≠ "hmhi-transfer" → ∀ pn2, buildPrompt c t pc pn2 = buildPrompt c t pc "") := by
  refine ⟨?_, ?_, ?_⟩
  · intro hcond
    refine ⟨systemPromptFor c ++ transcriptSection t ++ patientSection pc, ?_⟩
    rw [buildPrompt_decomposition]
    simp [previousNoteSection, hcond, String.append_assoc]
  · intro hcond
    rw [buildPrompt_decomposition, buildPrompt_decomposition]
    simp [previousNoteSection, hcond]
  · intro hc pn2
    rw [buildPrompt_decomposition, buildPrompt_decomposition]
    simp [previousNoteSection, hc]

/-- Claim C4 witness: with the transfer-of-care context and a concrete
non-empty previous note, the composed prompt carries the previous-note
block just before the closing line. -/
theorem previousNote_block_witness :
    ∃ pre, buildPrompt "hmhi-transfer" "t" none "old note"
      = pre ++ ("\n\nPREVIOUS PATIENT NOTE:\n" ++ "old note") ++ closingSection :=
  (previousNote_block "hmhi-transfer" "t" "old note" none).1 ⟨rfl, by decide⟩

/-- Claim C5: for every input combination, the composed prompt is the
concatenation, in this fixed order, of the selected template, the
verbatim transcript section, the patient-information block (empty when
no snapshot was supplied), the previous-note block (empty when not
applicable), and the fixed closing instruction line, which always
terminates the prompt. -/
theorem prompt_section_order (c t pn : String) (pc : Option PatientContext) :
    buildPrompt c t pc pn
      = systemPromptFor c ++ ("\n\nTRANSCRIPT:\n" ++ t) ++ patientSection pc
          ++ previousNoteSection c pn ++ "\n\nGenerate the clinical note now:"
  ∧ patientSection none = ""
  ∧ ∃ pre, buildPrompt c t pc pn = pre ++ "\n\nGenerate the clinical note now:" := by
  refine ⟨buildPrompt_decomposition c t pn pc, rfl,
    systemPromptFor c ++ transcriptSection t ++ patientSection pc
      ++ previousNoteSection c pn, ?_⟩
  rw [buildPrompt_decomposition]
  simp [String.append_assoc, closingSection]

/-- Claim C6: the patient-information block lists the name line always,
and each optional field's line exactly when that field is present and
non-empty; in particular, when only the name is set (MRN, DOB and
gender each absent or empty) the block consists of the name line
alone. -/
theorem patient_block_fields (c t pn n : String) (mrn dob g : Option String) :
    buildPrompt c t (some ⟨n, mrn, dob, g⟩) pn
      = systemPromptFor c ++ transcriptSection t
          ++ ("\n\nPATIENT INFORMATION:\nName: " ++ n
              ++ (if optTruthy mrn then "\nMRN: " ++ mrn.getD "" else "")
              ++ (if optTruthy dob then "\nDate of Birth: " ++ dob.getD "" else "")
              ++ (if optTruthy g then "\nGender: " ++ g.getD "" else ""))
          ++ previousNoteSection c pn ++ closingSection
  ∧ (optTruthy mrn = false ∧ optTruthy dob = false ∧ optTruthy g = false →
      buildPrompt c t (some ⟨n, mrn, dob, g⟩) pn
        = systemPromptFor c ++ transcriptSection t
            ++ ("\n\nPATIENT INFORMATION:\nName: " ++ n)
            ++ previousNoteSection c pn ++ closingSection) := by
  constructor
  · rw [buildPrompt_decomposition]
    simp [patientSection]
  · rintro ⟨h1, h2, h3⟩
    rw [buildPrompt_decomposition]
    simp [patientSection, h1, h2, h3]

/-- Claim C6 witness: a snapshot with only the name set yields a
patient block consisting of exactly the name line. -/
theorem patient_block_fields_witness :
    buildPrompt "dbh-intake" "t" (some ⟨"Jane Doe", none, some "", none⟩) ""
      = systemPromptFor "dbh-intake" ++ transcriptSection "t"
          ++ ("\n\nPATIENT INFORMATION:\nName: " ++ "Jane Doe")
          ++ previousNoteSection "dbh-intake" "" ++ closingSection :=
  (patient_block_fields "dbh-intake" "t" "" "Jane Doe" none (some "") none).2
    ⟨by decide, by decide, by decide⟩

end NoteWriter

namespace PatientDirectory

/-! ### Claim theorems about the patient directory -/

/-- Claim C2: a stored record created by a different user is reported
exactly like a missing record — `getPatient` returns `none`, never the
record and never a distinct authorization error (its result type has no
error variant at all). -/
theorem getPatient_cross_user (userA userB patientId : String) (s : Store)
    (d : PatientDoc) (hlookup : s.lookup patientId = some d)
    (howner : d.createdBy = userB) (hne : userB ≠ userA) :
    getPatient userA patientId s = none := by
  unfold getPatient
  rw [hlookup]
  simp [howner, hne]

/-! ### Supporting lemmas -/

lemma withName_status (u : UpdatePatientRequest) (d : PatientDoc) :
    (withName u d).status = d.status := by
  unfold withName
  repeat' split
  all_goals rfl

lemma withMrn_status (u : UpdatePatientRequest) (d : PatientDoc) :
    (withMrn u d).status = d.status := by
  unfold withMrn
  repeat' split
  all_goals rfl

lemma withDob_status (u : UpdatePatientRequest) (d : PatientDoc) :
    (withDob u d).status = d.status := by
  unfold withDob
  repeat' split
  all_goals rfl

lemma withGender_status (u : UpdatePatientRequest) (d : PatientDoc) :
    (withGender u d).status = d.status := by
  unfold withGender
  split
  all_goals rfl

lemma withStatus_status (u : UpdatePatientRequest) (d : PatientDoc) :
    (withStatus u d).status =
      match u.status with
      | some st => st
      | none => d.status := by
  unfold withStatus
  split
  all_goals rfl

lemma applyUpdates_status (u : UpdatePatientRequest) (now : Nat) (d : PatientDoc) :
    (applyUpdates u now d).status =
      match u.status with
      | some st => st
      | none => d.status := by
  unfold applyUpdates
  rw [withStatus_status, withGender_status, withDob_status, withMrn_status, withName_status]

lemma allInactiveAt_storeUpdate {id pid : String} {s : Store} {f : PatientDoc → PatientDoc}
    (h : allInactiveAt id s)
    (hf : pid = id → ∀ d, d.status = .inactive → (f d).status = .inactive) :
    allInactiveAt id (storeUpdate pid f s) := by
  intro p hp hpid
  unfold storeUpdate at hp
  obtain ⟨q, hq, he⟩ := List.mem_map.mp hp
  by_cases hq1 : q.1 = pid
  · rw [if_pos hq1] at he
    subst he
    exact hf (hq1 ▸ hpid) q.2 (h q hq (hq1.trans (hq1 ▸ hpid)))
  · rw [if_neg hq1] at he
    subst he
    exact h q hq hpid

lemma allInactiveAt_storeUpdate_force {id : String} {s : Store} {f : PatientDoc → PatientDoc}
    (hf : ∀ d, (f d).status = .inactive) :
    allInactiveAt id (storeUpdate id f s) := by
  intro p hp hpid
  unfold storeUpdate at hp
  obtain ⟨q, hq, he⟩ := List.mem_map.mp hp
  by_cases hq1 : q.1 = id
  · rw [if_pos hq1] at he
    subst he
    exact hf q.2
  · rw [if_neg hq1] at he
    subst he
    exact absurd hpid hq1

lemma allInactiveAt_storeSet {id newId : String} {d : PatientDoc} {s : Store}
    (h : allInactiveAt id s) (hne : newId ≠ id) :
    allInactiveAt id (storeSet newId d s) := by
  intro p hp hpid
  unfold storeSet at hp
  rcases List.mem_cons.mp hp with rfl | hp2
  · exact absurd hpid hne
  · exact h p (List.mem_of_mem_filter hp2) hpid

lemma createPatient_ok_store {userId newId : String} {pd : CreatePatientRequest}
    {now : Nat} {s s2 : Store} {d : PatientDoc}
    (h : createPatient userId pd newId now s = .ok (d, s2)) :
    s2 = storeSet newId d s := by
  unfold createPatient at h
  split at h
  · exact absurd h (by simp)
  · split at h
    · exact absurd h (by simp)
    · obtain h2 := Except.ok.inj h
      have h3 := congrArg Prod.fst h2
      have h4 := congrArg Prod.snd h2
      simp only [] at h3 h4
      rw [← h4, h3]

lemma updatePatient_ok_store {userId pid : String} {u : UpdatePatientRequest}
    {now : Nat} {s s2 : Store}
    (h : updatePatient userId pid u now s = .ok s2) :
    s2 = storeUpdate pid (applyUpdates u now) s := by
  unfold updatePatient at h
  split at h
  · exact absurd h (by simp)
  · exact (Except.ok.inj h).symm

lemma allInactiveAt_applyOp {id : String} {s : Store} {op : Op}
    (h : allInactiveAt id s) (hop : preservesInactive id op) :
    allInactiveAt id (applyOp s op) := by
  cases op with
  | create userId pd newId now =>
    simp only [applyOp]
    split
    case h_1 d2 s2 heq =>
      rw [createPatient_ok_store heq]
      exact allInactiveAt_storeSet h hop
    case h_2 => exact h
  | update userId pid u now =>
    simp only [applyOp]
    split
    case h_1 s2 heq =>
      rw [updatePatient_ok_store heq]
      refine allInactiveAt_storeUpdate h ?_
      intro hpid d hd
      rw [applyUpdates_status]
      cases hst : u.status with
      | none => exact hd
      | some st =>
        cases st with
        | active => exact absurd hst (hop hpid)
        | inactive => rfl
    case h_2 => exact h
  | deactivate userId pid now =>
    simp only [applyOp, deactivatePatient]
    split
    case h_1 s2 heq =>
      rw [updatePatient_ok_store heq]
      refine allInactiveAt_storeUpdate h ?_
      intro _ d _
      rw [applyUpdates_status]
    case h_2 => exact h
  | reactivate userId pid now =>
    simp only [applyOp, reactivatePatient]
    split
    case h_1 s2 heq =>
      rw [updatePatient_ok_store heq]
      refine allInactiveAt_storeUpdate h ?_
      intro hpid
      exact absurd hpid hop
    case h_2 => exact h

lemma allInactiveAt_applyOps {id : String} {s : Store} {ops : List Op}
    (h : allInactiveAt id s) (hops : ∀ op ∈ ops, preservesInactive id op) :
    allInactiveAt id (applyOps s ops) := by
  induction ops generalizing s with
  | nil => exact h
  | cons op rest ih =>
    exact ih (allInactiveAt_applyOp h (hops op (List.mem_cons_self _ _)))
      (fun o ho => hops o (List.mem_cons_of_mem _ ho))

lemma deactivate_ok_allInactive {userD id : String} {nowD : Nat} {s s2 : Store}
    (h : deactivatePatient userD id nowD s = .ok s2) :
    allInactiveAt id s2 := by
  unfold deactivatePatient at h
  rw [updatePatient_ok_store h]
  refine allInactiveAt_storeUpdate_force ?_
  intro d
  rw [applyUpdates_status]
lemma mem_of_mem_searchStep {t : Option String} {l : List (String × PatientDoc)}
    {p : String × PatientDoc} (hp : p ∈ searchStep t l) : p ∈ l := by
  unfold searchStep at hp
  split at hp
  · split at hp
    · exact hp
    · exact (List.mem_filter.mp hp).1
  · exact hp

lemma mem_sortStep {f : PatientSearchFilters} {l : List (String × PatientDoc)}
    {p : String × PatientDoc} : p ∈ sortStep f l ↔ p ∈ l :=
  (List.perm_insertionSort _ _).mem_iff

lemma mem_of_mem_statusFiltered {st : Option Status} {l : List (String × PatientDoc)}
    {p : String × PatientDoc} (hp : p ∈ statusFiltered st l) :
    p ∈ l ∧ ∀ s2, st = some s2 → p.2.status = s2 := by
  unfold statusFiltered at hp
  split at hp
  case h_1 s2 =>
    have h := List.mem_filter.mp hp
    refine ⟨h.1, ?_⟩
    intro s3 hs3
    obtain rfl : s2 = s3 := Option.some.inj hs3
    exact of_decide_eq_true h.2
  case h_2 =>
    refine ⟨hp, ?_⟩
    intro s2 hs2
    simp_all

lemma mem_of_mem_userFiltered {u : String} {s : Store} {p : String × PatientDoc}
    (hp : p ∈ userFiltered u s) : p ∈ s ∧ p.2.createdBy = u := by
  unfold userFiltered at hp
  have h := List.mem_filter.mp hp
  exact ⟨h.1, of_decide_eq_true h.2⟩

lemma mem_of_mem_getPatients {userId : String} {f : PatientSearchFilters} {s : Store}
    {p : String × PatientDoc} (hp : p ∈ getPatients userId f s) :
    p ∈ s ∧ p.2.createdBy = userId ∧ ∀ st, f.status = some st → p.2.status = st := by
  unfold getPatients at hp
  have h1 := mem_of_mem_searchStep hp
  have h2 := mem_of_mem_statusFiltered (mem_sortStep.mp h1)
  have h3 := mem_of_mem_userFiltered h2.1
  exact ⟨h3.1, h3.2, h2.2⟩

lemma getPatients_excludes {id userQ : String} {f : PatientSearchFilters} {s : Store}
    (h : allInactiveAt id s) (hf : f.status = some .active) :
    ∀ p ∈ getPatients userQ f s, p.1 ≠ id := by
  intro p hp hpid
  obtain ⟨hmem, _, hst⟩ := mem_of_mem_getPatients hp
  have h1 := hst .active hf
  have h2 := h p hmem hpid
  rw [h1] at h2
  exact absurd h2 (by simp)

lemma key_preserved {pid : String} {t : Store} (op : Op)
    (h : ∃ d, (pid, d) ∈ t) : ∃ d, (pid, d) ∈ applyOp t op := by
  obtain ⟨d, hd⟩ := h
  have hmap : ∀ (u : UpdatePatientRequest) (now : Nat) (pidU : String),
      ∃ d2, (pid, d2) ∈ storeUpdate pidU (applyUpdates u now) t := by
    intro u now pidU
    by_cases hpid : pid = pidU
    · refine ⟨applyUpdates u now d, ?_⟩
      unfold storeUpdate
      have := List.mem_map_of_mem
        (fun p => if p.1 = pidU then (p.1, applyUpdates u now p.2) else p) hd
      simpa [hpid] using this
    · refine ⟨d, ?_⟩
      unfold storeUpdate
      have := List.mem_map_of_mem
        (fun p => if p.1 = pidU then (p.1, applyUpdates u now p.2) else p) hd
      simpa [hpid] using this
  cases op with
  | create userId pd newId now =>
    simp only [applyOp]
    split
    case h_1 d2 s2 heq =>
      rw [createPatient_ok_store heq]
      unfold storeSet
      by_cases hpid : pid = newId
      · exact ⟨d2, hpid ▸ List.mem_cons_self _ _⟩
      · refine ⟨d, List.mem_cons_of_mem _ (List.mem_filter.mpr ⟨hd, ?_⟩)⟩
        simp [hpid]
    case h_2 => exact ⟨d, hd⟩
  | update userId pidU u now =>
    simp only [applyOp]
    split
    case h_1 s2 heq =>
      rw [updatePatient_ok_store heq]
      exact hmap u now pidU
    case h_2 => exact ⟨d, hd⟩
  | deactivate userId pidU now =>
    simp only [applyOp, deactivatePatient]
    split
    case h_1 s2 heq =>
      rw [updatePatient_ok_store heq]
      exact hmap _ now pidU
    case h_2 => exact ⟨d, hd⟩
  | reactivate userId pidU now =>
    simp only [applyOp, reactivatePatient]
    split
    case h_1 s2 heq =>
      rw [updatePatient_ok_store heq]
      exact hmap _ now pidU
    case h_2 => exact ⟨d, hd⟩

/-- Claim C10: `searchPatients` returns at most `maxResults` records,
each owned by the requesting user and active, and an empty or
whitespace-only search term yields the empty list for every store
(the store is never consulted). -/
theorem searchPatients_spec (userId term : String) (n : Nat) (s : Store) :
    (searchPatients userId term n s).length ≤ n
  ∧ (∀ p ∈ searchPatients userId term n s,
      p.2.createdBy = userId ∧ p.2.status = .active ∧ p ∈ s)
  ∧ (jsTrim term = "" → ∀ s2 : Store, searchPatients userId term n s2 = []) := by
  unfold searchPatients
  by_cases h : jsTrim term = ""
  · simp [h]
  · rw [if_neg h]
    refine ⟨?_, ?_, fun hc => absurd hc h⟩
    · rw [List.length_take]
      exact min_le_left _ _
    · intro p hp
      have hmem := List.take_subset _ _ hp
      have h2 := mem_of_mem_getPatients hmem
      exact ⟨h2.2.1, h2.2.2 .active rfl, h2.1⟩

/-- Claim C10 witness: the guarantees instantiated at a concrete user,
term, bound and store. -/
theorem searchPatients_spec_witness :
    (searchPatients "u1" "ja" 1 c8Store).length ≤ 1
  ∧ (∀ p ∈ searchPatients "u1" "ja" 1 c8Store,
      p.2.createdBy = "u1" ∧ p.2.status = .active ∧ p ∈ c8Store)
  ∧ (jsTrim "ja" = "" → ∀ s2 : Store, searchPatients "u1" "ja" 1 s2 = []) :=
  searchPatients_spec "u1" "ja" 1 c8Store

/-- Claim C8: after a successful `deactivatePatient` of record `id`,
and any further sequence of service calls none of which moves `id` back
to active (no `reactivatePatient` of `id`, no update of `id` with
status `active` — the body of `reactivatePatient` — and no create at
`id`, ids being fresh), `getPatients` with the `active` status filter
never returns a record with id `id`, for any requesting user.
Moreover the status domain has exactly the two states active/inactive,
and no operation ever removes a stored record (no hard delete). -/
theorem deactivated_stays_hidden (s s2 : Store) (userD id : String) (nowD : Nat)
    (ops : List Op) (userQ : String) (f : PatientSearchFilters)
    (hdeact : deactivatePatient userD id nowD s = .ok s2)
    (hops : ∀ op ∈ ops, preservesInactive id op)
    (hf : f.status = some .active) :
    (∀ p ∈ getPatients userQ f (applyOps s2 ops), p.1 ≠ id)
  ∧ allInactiveAt id (applyOps s2 ops)
  ∧ (∀ d : PatientDoc, d.status = .active ∨ d.status = .inactive)
  ∧ (∀ (t : Store) (op : Op) (pid : String),
        (∃ d, (pid, d) ∈ t) → ∃ d, (pid, d) ∈ applyOp t op) := by
  have hinactive := allInactiveAt_applyOps (deactivate_ok_allInactive hdeact) hops
  refine ⟨getPatients_excludes hinactive hf, hinactive, ?_, ?_⟩
  · intro d
    cases hd : d.status
    · exact Or.inl rfl
    · exact Or.inr rfl
  · intro t op pid hex
    exact key_preserved op hex

/-- Claim C8 witness: the guarantees instantiated at a concrete store,
deactivation and operation sequence. -/
theorem deactivated_stays_hidden_witness :
    (∀ p ∈ getPatients "u1" { status := some .active } (applyOps
        [("p1", { c8Doc with lastModified := 1, status := .inactive })] c8Ops), p.1 ≠ "p1")
  ∧ allInactiveAt "p1" (applyOps
      [("p1", { c8Doc with lastModified := 1, status := .inactive })] c8Ops)
  ∧ (∀ d : PatientDoc, d.status = .active ∨ d.status = .inactive)
  ∧ (∀ (t : Store) (op : Op) (pid : String),
        (∃ d, (pid, d) ∈ t) → ∃ d, (pid, d) ∈ applyOp t op) :=
  deactivated_stays_hidden c8Store
    [("p1", { c8Doc with lastModified := 1, status := .inactive })]
    "u1" "p1" 1 c8Ops "u1" { status := some .active }
    rfl (by simp [c8Ops, preservesInactive]) rfl

/-- Claim C2 witness: a concrete record owned by `u2` is invisible to
`u1`. -/
theorem getPatient_cross_user_witness :
    getPatient "u1" "p1"
        [("p1", { name := "Jane", mrn := none, dob := none, gender := none,
                  createdBy := "u2", createdAt := 0, lastModified := 0,
                  status := .active })]
      = none :=
  getPatient_cross_user "u1" "u2" "p1"
    [("p1", { name := "Jane", mrn := none, dob := none, gender := none,
              createdBy := "u2", createdAt := 0, lastModified := 0,
              status := .active })]
    { name := "Jane", mrn := none, dob := none, gender := none,
      createdBy := "u2", createdAt := 0, lastModified := 0, status := .active }
    (by decide) rfl (by decide)

/-- Claim C7: `createPatient` stores and returns the trimmed name, and
each optional field is present on the document exactly when it was
supplied and non-empty after trimming — never as an empty-string
placeholder.  The stored document equals the returned document. -/
theorem createPatient_trims (userId newId : String) (pd : CreatePatientRequest)
    (now : Nat) (s : Store) (hname : jsTrim pd.name ≠ "") (huser : userId ≠ "") :
    ∃ d : PatientDoc,
      createPatient userId pd newId now s = .ok (d, storeSet newId d s)
      ∧ d.name = jsTrim pd.name
      ∧ d.mrn = (if jsTrim (pd.mrn.getD "") = "" then none else some (jsTrim (pd.mrn.getD "")))
      ∧ d.dob = (if jsTrim (pd.dob.getD "") = "" then none else some (jsTrim (pd.dob.getD "")))
      ∧ d.gender = pd.gender
      ∧ d.createdBy = userId
      ∧ d.status = .active
      ∧ d.mrn ≠ some "" ∧ d.dob ≠ some "" := by
  unfold createPatient
  rw [if_neg hname, if_neg huser]
  refine ⟨_, rfl, rfl, ?_, ?_, rfl, rfl, rfl, ?_, ?_⟩
  · cases pd.mrn with
    | none => simp [show jsTrim "" = "" from rfl]
    | some m => simp
  · cases pd.dob with
    | none => simp [show jsTrim "" = "" from rfl]
    | some b => simp
  · cases pd.mrn with
    | none => simp
    | some m =>
      simp only []
      split
      · simp
      · simp_all
  · cases pd.dob with
    | none => simp
    | some b =>
      simp only []
      split
      · simp
      · simp_all

/-- Claim C7 witness: creating `"  Jane Doe  "` with a whitespace MRN
and no DOB yields a document named `"Jane Doe"` with no MRN and no
DOB. -/
theorem createPatient_trims_witness :
    ∃ d : PatientDoc,
      createPatient "u1" { name := "  Jane Doe  ", mrn := some "  ", dob := none,
                           gender := some .female } "p7" 3 []
        = .ok (d, storeSet "p7" d [])
      ∧ d.name = jsTrim "  Jane Doe  "
      ∧ d.mrn = (if jsTrim ((some "  " : Option String).getD "") = "" then none
                 else some (jsTrim ((some "  " : Option String).getD "")))
      ∧ d.dob = (if jsTrim ((none : Option String).getD "") = "" then none
                 else some (jsTrim ((none : Option String).getD "")))
      ∧ d.gender = some .female
      ∧ d.createdBy = "u1"
      ∧ d.status = .active
      ∧ d.mrn ≠ some "" ∧ d.dob ≠ some "" :=
  createPatient_trims "u1" "p7"
    { name := "  Jane Doe  ", mrn := some "  ", dob := none, gender := some .female }
    3 [] (by decide) (by decide)

/-- Claim C9: the two revisions of `updatePatient` are not equivalent.
Updating with MRN explicitly set to the empty string, the current
revision leaves the stored MRN unchanged (omit-to-keep) while the
earlier revision overwrites it with null (explicit clear). -/
theorem updatePatient_revisions_differ :
    updatePatient "u1" "p1" { mrn := some "" } 5 c9Store
      = .ok [("p1", { c9Doc with mrn := some "OLD", lastModified := 5 })]
  ∧ updatePatientOld "u1" "p1" { mrn := some "" } 5 c9Store
      = .ok [("p1", { c9Doc with mrn := none, lastModified := 5 })] := by
  constructor <;> rfl

end PatientDirectory
